import Mathlib

/-!
Verification of the whimsy MCP tool server (`src/index.ts`).

The development shallowly embeds the server's data model and the four tool
handlers (`set_whimsy_level`, `get_whimsy_guidance`, `oblique_strategy`,
`whimsical_thinking`) together with the dispatcher of `setupToolHandlers`.

Modelling conventions:
* JavaScript values that may be `undefined` (the handler casts the raw
  argument payload with `as unknown as WhimsyThought`, so even keys the
  JSON schema marks required can be absent at runtime) are `Option` values.
* JavaScript truthiness tests (`if (style)`, `!whimsyData.whimsy`,
  `whimsyData.branchId && whimsyData.branchFromWhimsy`, ...) are modelled by
  explicit `js...` helper functions mirroring ECMAScript semantics, in
  particular `undefined < 1` and `undefined > undefined` are `false`.
* `throw` / `catch` is modelled with `Except String`; the dispatcher catch
  blocks convert an error into an envelope with `isError := some true`.
* A JSON field that a handler simply omits (every success envelope omits
  `isError`) is `none`; a field set to `true` is `some true`.
* `chalk` color wrappers are identity (on the non-TTY stdio transport chalk
  emits no escape codes), and `Math.floor(Math.random() * n)`, always a
  number in `[0, n)`, is modelled by `r % n` for an arbitrary oracle `r`.
* `readFileSync` is modelled by an `Option String` input: `none` is the
  ENOENT case handled by the inner catch of `getObliqueStrategy`.
-/

namespace WhimsyServer

/-- One item of a response `content` array: `{ type: "text", text: ... }`. -/
structure TextContent where
  type : String
  text : String

deriving instance DecidableEq for TextContent

/-- The response envelope returned to the MCP transport.  `isError := none`
models a response object with no `isError` property at all. -/
structure Envelope where
  content : List TextContent
  isError : Option Bool := none

deriving instance DecidableEq for Envelope

/-- `WhimsySettings` from the source: a level (0 off, 1 subtle, 2 overt)
and an optional style tag. -/
structure WhimsySettings where
  level : Nat
  style : Option String := none

deriving instance DecidableEq for WhimsySettings

/-- `WhimsyThought` from the source.  Every field is `Option` because the
dispatcher obtains the record by a plain type cast of the raw arguments:
nothing guarantees at runtime that the schema-required keys are present. -/
structure WhimsyThought where
  whimsy : Option String := none
  nextWhimsyNeeded : Option Bool := none
  whimsyNumber : Option Int := none
  totalWhimsies : Option Int := none
  delightLevel : Option Int := none
  unexpectedInsight : Option String := none
  adjacentPaths : Option (List String) := none
  tonalShift : Option String := none
  emotionalResonance : Option String := none
  connectionStyle : Option String := none
  sparkDirection : Option String := none
  isRevision : Option Bool := none
  revisesWhimsy : Option Int := none
  branchFromWhimsy : Option Int := none
  branchId : Option String := none
  needsMoreWhimsies : Option Bool := none

deriving instance DecidableEq for WhimsyThought

/-- The mutable fields of `WhimsyThinkingServer`: the main history, the
branch map (an association list: the most recent binding of a key wins,
modelling assignment to `this.branches[id]`), and the settings.  Defaults
are the field initializers of the class: empty history and branches,
`level: 1`. -/
structure ServerState where
  whimsyHistory : List WhimsyThought := []
  branches : List (String × List WhimsyThought) := []
  whimsySettings : WhimsySettings := { level := 1 }

deriving instance DecidableEq for ServerState

/-- The state of the server right after construction. -/
def initialState : ServerState := {}

/-- JS truthiness of a possibly-undefined string: `undefined` and `""` are
falsy. -/
def jsTruthyStr (s : Option String) : Bool :=
  match s with
  | none => false
  | some v => v ≠ ""

/-- JS truthiness of a possibly-undefined number: `undefined` and `0` are
falsy. -/
def jsTruthyNum (n : Option Int) : Bool :=
  match n with
  | none => false
  | some v => v ≠ 0

/-- JS truthiness of a possibly-undefined boolean. -/
def jsTruthyBool (b : Option Bool) : Bool := b.getD false

/-- JS comparison `x < 1` where `x` may be `undefined`: any comparison with
`undefined` (NaN after coercion) is `false`. -/
def jsLtOne (n : Option Int) : Bool :=
  match n with
  | none => false
  | some v => v < 1

/-- JS comparison `a > b` where either side may be `undefined`: `false`
unless both are numbers. -/
def jsGtNum (a b : Option Int) : Bool :=
  match a, b with
  | some x, some y => x > y
  | _, _ => false

/-- JS string interpolation of a possibly-undefined number. -/
def jsNumToString (n : Option Int) : String :=
  match n with
  | none => "undefined"
  | some v => toString v

/-- JS `a || d` on a possibly-undefined string (`""` is falsy). -/
def jsOrDefault (s : Option String) (d : String) : String :=
  match s with
  | none => d
  | some v => if v = "" then d else v

/-- The ECMAScript `TrimString` whitespace class: the WhiteSpace
productions (TAB, VT, FF, SP, NBSP, ZWNBSP and the Unicode
space-separator category) together with the LineTerminator productions
(LF, CR, LS, PS). -/
def jsWhitespace (c : Char) : Bool :=
  c.toNat = 0x9 || c.toNat = 0xA || c.toNat = 0xB || c.toNat = 0xC || c.toNat = 0xD ||
  c.toNat = 0x20 || c.toNat = 0xA0 || c.toNat = 0x1680 ||
  (0x2000 ≤ c.toNat && c.toNat ≤ 0x200A) ||
  c.toNat = 0x2028 || c.toNat = 0x2029 || c.toNat = 0x202F || c.toNat = 0x205F ||
  c.toNat = 0x3000 || c.toNat = 0xFEFF

/-- `String.prototype.trim`: drop the full ECMAScript whitespace class
from both ends. -/
def jsTrim (s : String) : String :=
  ⟨((s.data.dropWhile jsWhitespace).reverse.dropWhile jsWhitespace).reverse⟩

/-- `String.prototype.split('\n')` on the character list: split on every
newline, keeping empty segments (as JS does). -/
def splitNewlineChars (cs : List Char) : List (List Char) :=
  match cs with
  | [] => [[]]
  | c :: rest =>
    let r := splitNewlineChars rest
    if c = '\n' then [] :: r
    else
      match r with
      | [] => [[c]]
      | h :: t => (c :: h) :: t

/-- `content.split('\n')` as a list of strings. -/
def jsSplitNewlines (s : String) : List String :=
  (splitNewlineChars s.data).map fun cs => ⟨cs⟩

/-- `Array.prototype.slice(0, e)`: for nonnegative `e` the first `e`
elements; a negative `e` counts from the end (`length + e`, clamped at 0). -/
def jsSliceTo (l : List WhimsyThought) (e : Int) : List WhimsyThought :=
  if e < 0 then l.take ((l.length : Int) + e).toNat else l.take e.toNat

/-- `validateWhimsyData` of the source: the four guard clauses, in source
order, with their exact messages.  The comparisons follow JS semantics on
possibly-undefined values (see the `js...` helpers). -/
def validateWhimsyData (whimsyData : WhimsyThought) : Except String Unit :=
  if !(jsTruthyStr whimsyData.whimsy) || (jsTrim (whimsyData.whimsy.getD "")).length == 0 then
    .error "A whimsy must contain some delightful content!"
  else if jsLtOne whimsyData.whimsyNumber then
    .error "Whimsy numbers start from 1, like the first smile of dawn!"
  else if jsLtOne whimsyData.totalWhimsies then
    .error "We need at least one whimsy to begin our delightful journey!"
  else if jsGtNum whimsyData.whimsyNumber whimsyData.totalWhimsies
      && !(jsTruthyBool whimsyData.needsMoreWhimsies) then
    .error "Our whimsy number has wandered beyond our planned journey - perhaps we need more whimsies?"
  else
    .ok ()

/-- `getWhimsicalPrefix` of the source. -/
def getWhimsicalPrefix (whimsyData : WhimsyThought) : String :=
  if jsTruthyBool whimsyData.isRevision then "🔄 Revisiting with fresh wonder"
  else if jsTruthyStr whimsyData.branchId then "🌿 Branching into new delights"
  else "💫 Whimsical Exploration"

/-- `getDelightIndicator` of the source: a falsy `delightLevel`
(`undefined` or `0`) yields `""`; otherwise the stars are
`"⭐".repeat(Math.min(delightLevel, 10))` — and, as in ECMAScript,
`String.prototype.repeat` throws a `RangeError` (V8 message
`Invalid count value: ...`) when the count is negative, so a negative
`delightLevel` is an error that propagates out of the formatter. -/
def getDelightIndicator (delightLevel : Option Int) : Except String String :=
  match delightLevel with
  | none => .ok ""
  | some v =>
    if v = 0 then .ok ""
    else if min v 10 < 0 then
      .error ("Invalid count value: " ++ toString (min v 10))
    else
      .ok ("(Delight: " ++ String.join (List.replicate (min v 10).toNat "⭐") ++ ")")

/-- `getToneEmoji` of the source: `tone ? toneEmojis[tone] || "✨" : "✨"`. -/
def getToneEmoji (tone : Option String) : String :=
  match tone with
  | none => "✨"
  | some t =>
    if t = "" then "✨"
    else if t = "playful" then "🎈"
    else if t = "wonder" then "🌟"
    else if t = "curiosity" then "🔍"
    else if t = "gentle-humor" then "😊"
    else "✨"

/-- The numbered tangent lines of `formatWhimsy`'s `forEach` over
`adjacentPaths`. -/
def adjacentPathLines (paths : List String) : String :=
  String.join (paths.enum.map fun p => "  " ++ toString (p.1 + 1) ++ ". " ++ p.2 ++ "\n")

/-- `formatWhimsy` of the source, with `chalk` wrappers as identity
(no escape codes on the non-TTY stdio transport).  The
`getDelightIndicator` call can throw (negative repeat count), which makes
the whole formatter fallible; everything after it is total. -/
def formatWhimsy (whimsyData : WhimsyThought) : Except String String :=
  let whimsyPrefix := getWhimsicalPrefix whimsyData
  match getDelightIndicator whimsyData.delightLevel with
  | .error e => .error e
  | .ok delightIndicator =>
  let toneEmoji := getToneEmoji whimsyData.tonalShift
  let r := whimsyPrefix ++ " " ++ toneEmoji ++ "\n"
  let r := r ++ "Whimsy " ++ jsNumToString whimsyData.whimsyNumber ++ "/"
      ++ jsNumToString whimsyData.totalWhimsies ++ " " ++ delightIndicator ++ "\n\n"
  let r := r ++ whimsyData.whimsy.getD "" ++ "\n\n"
  let r := r ++ (match whimsyData.unexpectedInsight with
    | some s => if s ≠ "" then "✨ Delightful Discovery: " ++ s ++ "\n\n" else ""
    | none => "")
  let r := r ++ (match whimsyData.adjacentPaths with
    | some paths =>
      if paths.length > 0 then
        "🌟 Adjacent Wonders to Explore:\n" ++ adjacentPathLines paths ++ "\n"
      else ""
    | none => "")
  let r := r ++ (match whimsyData.emotionalResonance with
    | some s => if s ≠ "" then "💫 This might make you feel: " ++ s ++ "\n\n" else ""
    | none => "")
  let r := r ++ (match whimsyData.sparkDirection with
    | some s => if s ≠ "" then "🎯 Where this spark leads: " ++ s ++ "\n\n" else ""
    | none => "")
  let r := r ++ (match whimsyData.connectionStyle with
    | some s => if s ≠ "" then "Connection style: " ++ s ++ "\n" else ""
    | none => "")
  let r := r ++ (if jsTruthyBool whimsyData.nextWhimsyNeeded then
      "🌈 Ready for the next whimsical exploration!"
    else "✨ Our delightful journey feels complete... for now!")
  .ok r

/-- The state mutation of `processWhimsy` (after validation succeeded):
a record with truthy `branchId` and truthy `branchFromWhimsy` goes to its
branch — seeding the branch from `whimsyHistory.slice(0, branchFromWhimsy)`
when the key is not yet present — and every other record is appended to the
main history. -/
def recordThought (st : ServerState) (whimsyData : WhimsyThought) : ServerState :=
  if jsTruthyStr whimsyData.branchId && jsTruthyNum whimsyData.branchFromWhimsy then
    let bid := whimsyData.branchId.getD ""
    let seeded :=
      match List.lookup bid st.branches with
      | some b => b
      | none => jsSliceTo st.whimsyHistory (whimsyData.branchFromWhimsy.getD 0)
    { st with branches := (bid, seeded ++ [whimsyData]) :: st.branches }
  else
    { st with whimsyHistory := st.whimsyHistory ++ [whimsyData] }

/-- `processWhimsy` of the source: validate, then record, then render.
A throw carries the state as of the throw point: a validation failure
happens before any mutation (the original state), while a rendering
failure in `formatWhimsy` happens AFTER the record was pushed, so the
mutation survives the throw.  The success envelope has no `isError`
property. -/
def processWhimsy (st : ServerState) (whimsyData : WhimsyThought) :
    Except (ServerState × String) (ServerState × Envelope) :=
  match validateWhimsyData whimsyData with
  | .error e => .error (st, e)
  | .ok _ =>
    let st' := recordThought st whimsyData
    match formatWhimsy whimsyData with
    | .error e => .error (st', e)
    | .ok delightfulResponse =>
      .ok (st', { content := [{ type := "text", text := delightfulResponse }] })

/-- `setWhimsyLevel` of the source: the level is assigned unconditionally,
the style only under `if (style)`.  The confirmation envelope has no
`isError` property. -/
def setWhimsyLevel (st : ServerState) (level : Nat) (style : Option String) :
    ServerState × Envelope :=
  let newSettings : WhimsySettings :=
    { level := level
      style := if jsTruthyStr style then style else st.whimsySettings.style }
  let levelNames : List String := ["off", "subtle", "overt"]
  let emoji := if level = 0 then "🔇" else if level = 1 then "✨" else "🌈"
  let response := emoji ++ " Whimsy level set to " ++ toString level
      ++ " (" ++ levelNames.getD level "undefined" ++ ")"
  let response := response ++
    (if jsTruthyStr style then " with " ++ style.getD "" ++ " style" else "")
  let response := response ++
    (if level = 0 then "\n🎯 All responses will be purely functional and professional."
     else if level = 1 then "\n💫 Responses will have gentle touches of delight and wonder."
     else "\n🎈 Responses will be playfully delightful with overt whimsical touches!")
  ({ st with whimsySettings := newSettings },
   { content := [{ type := "text", text := response }] })

/-- The fixed whimsy-off directive of `getWhimsyGuidance`. -/
def offGuidance : String :=
  "🎯 Whimsy is OFF. Provide purely functional, professional responses without embellishment."

/-- The SUBTLE-tier guidance template of `getWhimsyGuidance`. -/
def subtleGuidance : String :=
  "✨ Apply SUBTLE whimsy:\n• Use gentle, delightful language choices\n• Add occasional playful metaphors or analogies\n• Include subtle warmth and personality\n• Use cheerful but professional tone\n"

/-- The OVERT-tier guidance template of `getWhimsyGuidance`. -/
def overtGuidance : String :=
  "🌈 Apply OVERT whimsy:\n• Use playfully delightful language throughout\n• Include creative metaphors and surprising connections\n• Add joyful embellishments and colorful descriptions\n• Express wonder and curiosity openly\n"

/-- The effective-level computation of `getWhimsyGuidance`:
`let effectiveLevel = level; if (seriousness === "high" && effectiveLevel > 1)
effectiveLevel = 1`. -/
def effectiveLevelOf (level : Nat) (seriousness : Option String) : Nat :=
  if seriousness = some "high" && level > 1 then 1 else level

/-- `getWhimsyGuidance` of the source.  Reads the settings, never mutates
them; both envelopes it builds have no `isError` property. -/
def getWhimsyGuidance (settings : WhimsySettings) (responseContext : String)
    (seriousness : Option String) : Envelope :=
  if settings.level = 0 then
    { content := [{ type := "text", text := offGuidance }] }
  else
    let effectiveLevel := effectiveLevelOf settings.level seriousness
    let style := jsOrDefault settings.style "gentle-humor"
    let guidance := (if effectiveLevel = 1 then subtleGuidance else overtGuidance)
      ++ ("\nStyle preference: " ++ style ++ "\n"
      ++ ("Context: " ++ responseContext)
      ++ (if seriousness = some "high" && decide (effectiveLevel < settings.level) then
            "\n⚖️ Reduced whimsy due to serious context - maintain professionalism while adding gentle touches."
          else ""))
    { content := [{ type := "text", text := guidance }] }

/-- The strategies parsed by `getObliqueStrategy`:
`content.split('\n').map(l => l.trim()).filter(l => l.length > 0)`. -/
def obliqueStrategies (strategiesContent : String) : List String :=
  ((jsSplitNewlines strategiesContent).map jsTrim).filter fun line => line.length != 0

/-- `strategies[randomIndex]`: the selection step of `getObliqueStrategy`. -/
def pickStrategy (strategies : List String) (i : Fin strategies.length) : String :=
  strategies.get i

/-- The success response text of `getObliqueStrategy`. -/
def strategyResponse (selectedStrategy : String) : String :=
  "🎯 **Oblique Strategy**\n\n\"" ++ selectedStrategy
    ++ "\"\n\n✨ *Credit: Brian Eno and Peter Schmidt*\n\nSometimes the most unexpected approach opens new pathways. How might this apply to your current situation?"

/-- The informational response of `getObliqueStrategy` when the strategies
file is missing (ENOENT, handled by the inner catch): no `isError`
property. -/
def strategiesNotFound : String :=
  "📝 Oblique Strategies file not found. Please create 'oblique-strategies.txt' in the project root with one strategy per line.\n\n✨ *Credit: Brian Eno and Peter Schmidt*"

/-- `getObliqueStrategy` of the source.  `strategiesFile` is the result of
`readFileSync` (`none` = ENOENT); an empty strategy list throws, which the
dispatcher boundary will catch; the random draw
`Math.floor(Math.random() * strategies.length)` is modelled as `r %
strategies.length` for an arbitrary oracle value `r`. -/
def getObliqueStrategy (strategiesFile : Option String) (r : Nat) :
    Except String Envelope :=
  match strategiesFile with
  | none => .ok { content := [{ type := "text", text := strategiesNotFound }] }
  | some strategiesContent =>
    let strategies := obliqueStrategies strategiesContent
    if h : strategies.length = 0 then
      .error "No strategies found in oblique-strategies.txt"
    else
      let idx : Fin strategies.length :=
        ⟨r % strategies.length, Nat.mod_lt r (Nat.pos_of_ne_zero h)⟩
      .ok { content := [{ type := "text", text := strategyResponse (pickStrategy strategies idx) }] }

/-- A decoded tool-call request, after the dispatcher's type casts of
`request.params.arguments`; `unknownTool` is any other tool name. -/
inductive ToolRequest where
  | setWhimsyLevelCall (level : Nat) (style : Option String)
  | getWhimsyGuidanceCall (responseContext : String) (seriousness : Option String)
  | obliqueStrategyCall
  | whimsicalThinkingCall (whimsyData : WhimsyThought)
  | unknownTool (name : String)

/-- Whether an `Except`-modelled computation throws. -/
def throwsError {α : Type} (e : Except String α) : Bool :=
  match e with
  | .error _ => true
  | .ok _ => false

/-- The failure paths of the dispatcher, read off the source: the
unknown-tool fallthrough, a validation or rendering throw inside
`processWhimsy`, and the empty-strategy-set throw of
`getObliqueStrategy`.  Every other path — including the ENOENT
strategy-file-not-found informational response — is a success. -/
def dispatchFails (req : ToolRequest) (strategiesFile : Option String) : Bool :=
  match req with
  | .setWhimsyLevelCall _ _ => false
  | .getWhimsyGuidanceCall _ _ => false
  | .obliqueStrategyCall =>
    match strategiesFile with
    | none => false
    | some c => (obliqueStrategies c).length == 0
  | .whimsicalThinkingCall whimsyData =>
    throwsError (validateWhimsyData whimsyData) || throwsError (formatWhimsy whimsyData)
  | .unknownTool _ => true

/-- The `CallToolRequestSchema` handler of `setupToolHandlers`: route by
tool name; every thrown failure is caught here and converted into an
envelope with `isError: true` and the matching catch-block message; the
unknown-tool fallthrough also returns `isError: true`. -/
def handleToolCall (st : ServerState) (req : ToolRequest)
    (strategiesFile : Option String) (r : Nat) : ServerState × Envelope :=
  match req with
  | .setWhimsyLevelCall level style => setWhimsyLevel st level style
  | .getWhimsyGuidanceCall ctx ser => (st, getWhimsyGuidance st.whimsySettings ctx ser)
  | .obliqueStrategyCall =>
    match getObliqueStrategy strategiesFile r with
    | .ok env => (st, env)
    | .error msg =>
      (st, { content := [{ type := "text",
                           text := "Couldn't retrieve an Oblique Strategy: " ++ msg }],
             isError := some true })
  | .whimsicalThinkingCall whimsyData =>
    match processWhimsy st whimsyData with
    | .ok res => res
    | .error se =>
      (se.1, { content := [{ type := "text",
                             text := "Oh dear! Our whimsical journey hit a small snag: " ++ se.2 }],
               isError := some true })
  | .unknownTool name =>
    (st, { content := [{ type := "text", text := "Unknown tool: " ++ name }],
           isError := some true })

/-! Concrete records used by witnesses and counterexamples. -/

/-- Sample record 1 of a three-record main history. -/
def thoughtA : WhimsyThought :=
  { whimsy := some "A", nextWhimsyNeeded := some true, whimsyNumber := some 1, totalWhimsies := some 3 }

/-- Sample record 2 of a three-record main history. -/
def thoughtB : WhimsyThought :=
  { whimsy := some "B", nextWhimsyNeeded := some true, whimsyNumber := some 2, totalWhimsies := some 3 }

/-- Sample record 3 of a three-record main history. -/
def thoughtC : WhimsyThought :=
  { whimsy := some "C", nextWhimsyNeeded := some true, whimsyNumber := some 3, totalWhimsies := some 3 }

/-- A valid record that opens branch `"x"` at declared origin 2. -/
def branchRecordX : WhimsyThought :=
  { whimsy := some "D", nextWhimsyNeeded := some false, whimsyNumber := some 3, totalWhimsies := some 3,
    branchFromWhimsy := some 2, branchId := some "x" }

/-- A server state whose main history is `[thoughtA, thoughtB, thoughtC]`. -/
def stateABC : ServerState := { whimsyHistory := [thoughtA, thoughtB, thoughtC] }

/-- A payload with non-blank `whimsy` but with the schema-required keys
`whimsyNumber` and `totalWhimsies` absent. -/
def missingNumbers : WhimsyThought := { whimsy := some "hello", nextWhimsyNeeded := some true }

/-- A valid-looking payload whose `whimsyNumber` exceeds `totalWhimsies`. -/
def overflowThought : WhimsyThought :=
  { whimsy := some "W", nextWhimsyNeeded := some true, whimsyNumber := some 5, totalWhimsies := some 3 }

/-- `overflowThought` with `needsMoreWhimsies: true`. -/
def overflowAllowed : WhimsyThought :=
  { overflowThought with needsMoreWhimsies := some true }

/-- `overflowAllowed` with a negative `delightLevel`: it passes every
validation guard but makes the renderer's `"⭐".repeat(-1)` throw. -/
def overflowAllowedNegDelight : WhimsyThought :=
  { overflowAllowed with delightLevel := some (-1) }

/-- A payload whose `whimsy` is whitespace only. -/
def whitespaceThought : WhimsyThought :=
  { whimsy := some "   ", nextWhimsyNeeded := some true, whimsyNumber := some 1, totalWhimsies := some 1 }

/-- A payload whose `whimsy` is a single blank, used to exercise a failed
validation against a populated state. -/
def blankThought : WhimsyThought := { whimsy := some " " }

/-- A state with a non-default level and style, as left by earlier calls. -/
def styledState : ServerState := { whimsySettings := { level := 1, style := some "playful" } }

/-- The envelope the dispatcher returns when validation hits the
sequence-overflow guard: the catch-block wrapper around the guard's
message, flagged `isError: true`. -/
def overflowErrorEnvelope : Envelope :=
  { content := [{ type := "text", text := "Oh dear! Our whimsical journey hit a small snag: Our whimsy number has wandered beyond our planned journey - perhaps we need more whimsies?" }],
    isError := some true }

/-! Helper lemmas shared by the claim theorems. -/

/-- A string has length zero exactly when it is empty. -/
theorem string_length_eq_zero (s : String) : s.length = 0 ↔ s = "" := by
  cases s with
  | mk data =>
    constructor
    · intro h
      have hd : data = [] := by simpa [String.length] using h
      subst hd
      rfl
    · intro h
      rw [h]
      rfl

/-- String append acts as list append on the underlying character data. -/
theorem string_data_append (a b : String) : (a ++ b).data = a.data ++ b.data := rfl

/-- When the trimmed `whimsy` is nonempty, the first guard of
`validateWhimsyData` does not fire. -/
theorem blank_guard_false (d : WhimsyThought) (h : jsTrim (d.whimsy.getD "") ≠ "") :
    (!(jsTruthyStr d.whimsy) || (jsTrim (d.whimsy.getD "")).length == 0) = false := by
  cases hw : d.whimsy with
  | none => exact absurd (by rw [hw]; rfl) h
  | some v =>
    have hv : v ≠ "" := by
      intro hv
      exact h (by rw [hw, hv]; rfl)
    have hlen : (jsTrim v).length ≠ 0 := by
      intro h0
      exact h (by rw [hw]; simpa using (string_length_eq_zero _).mp h0)
    simp [jsTruthyStr, hw, hv, hlen]

/-- The formatter never throws when `delightLevel` is absent or
nonnegative: the only throw site is the negative repeat count in
`getDelightIndicator`. -/
theorem formatWhimsy_ok_of_delight_nonneg (d : WhimsyThought)
    (hdl : ∀ v, d.delightLevel = some v → 0 ≤ v) :
    throwsError (formatWhimsy d) = false := by
  cases hv : d.delightLevel with
  | none => simp [formatWhimsy, throwsError, getDelightIndicator, hv]
  | some v =>
    have h0 := hdl v hv
    have hmin : ¬ min v 10 < 0 := by
      have hle : (0 : Int) ≤ min v 10 := le_min h0 (by norm_num)
      omega
    by_cases hz : v = 0 <;>
      simp [formatWhimsy, throwsError, getDelightIndicator, hv, hz, hmin]

/-! Claim theorems. -/

/-- C1 (counterexample to the claim as stated): the success response of a
`set_whimsy_level` call carries no `isError` field at all — the returned
object is built without an `isError` property, so no boolean is present. -/
theorem setLevel_success_lacks_isError :
    (handleToolCall initialState (ToolRequest.setWhimsyLevelCall 1 none) none 0).2.isError = none ∧
    ¬ ∃ b : Bool,
      (handleToolCall initialState (ToolRequest.setWhimsyLevelCall 1 none) none 0).2.isError = some b :=
  ⟨rfl, by decide⟩

/-- C1 (amended): every envelope the dispatcher returns has exactly one
content item of kind `"text"`, and its `isError` field is present with
value `true` exactly on the failure paths of the error taxonomy (unknown
tool, a validation or rendering throw in the thinking handler, the
empty-strategy-set throw), and is absent — not `false` — on every success
path, including the strategy-file-not-found informational response. -/
theorem dispatcher_envelope_shape (st : ServerState) (req : ToolRequest)
    (strategiesFile : Option String) (r : Nat) :
    (handleToolCall st req strategiesFile r).2.content.map TextContent.type = ["text"] ∧
    (handleToolCall st req strategiesFile r).2.isError
      = (if dispatchFails req strategiesFile then some true else none) := by
  cases req with
  | setWhimsyLevelCall level style =>
    constructor <;> simp [handleToolCall, setWhimsyLevel, dispatchFails]
  | getWhimsyGuidanceCall ctx ser =>
    by_cases h : st.whimsySettings.level = 0 <;>
      constructor <;> simp [handleToolCall, getWhimsyGuidance, dispatchFails, h]
  | obliqueStrategyCall =>
    cases strategiesFile with
    | none => exact ⟨rfl, rfl⟩
    | some c =>
      by_cases h : (obliqueStrategies c).length = 0 <;>
        constructor <;> simp [handleToolCall, getObliqueStrategy, dispatchFails, h]
  | whimsicalThinkingCall d =>
    cases hv : validateWhimsyData d with
    | error msg =>
      constructor <;>
        simp [handleToolCall, processWhimsy, dispatchFails, throwsError, hv]
    | ok u =>
      cases u
      cases hf : formatWhimsy d with
      | error msg =>
        constructor <;>
          simp [handleToolCall, processWhimsy, dispatchFails, throwsError, hv, hf]
      | ok s =>
        constructor <;>
          simp [handleToolCall, processWhimsy, dispatchFails, throwsError, hv, hf]
  | unknownTool name => exact ⟨rfl, rfl⟩

/-- C2 (counterexample to the claim as stated): with main history
`[A, B, C]` (records numbered 1, 2, 3) and a fresh branch `"x"` declared at
origin index 2, the created branch after the append is `[A, B, record]` —
the seed `slice(0, 2)` INCLUDES the record whose 1-based index equals the
origin — whereas the claim's seed (strictly before that record) would give
the branch `[A, record]`. -/
theorem branch_seed_includes_origin_record :
    List.lookup "x"
        ((handleToolCall stateABC (ToolRequest.whimsicalThinkingCall branchRecordX) none 0).1.branches)
      = some [thoughtA, thoughtB, branchRecordX] ∧
    [thoughtA, thoughtB, branchRecordX] ≠ [thoughtA, branchRecordX] :=
  ⟨rfl, by decide⟩

/-- C2 (amended): a record carrying a branch id not yet in the branch map
together with a positive declared origin `k` creates the branch on that
first reference, seeded with the first `k` records of the main history —
up to AND including the record whose 1-based index equals `k` — and the
record itself appended after the seed. -/
theorem branch_created_on_first_reference (st : ServerState) (d : WhimsyThought)
    (strategiesFile : Option String) (r : Nat) (bid : String) (k : Int)
    (hid : d.branchId = some bid) (hbid : bid ≠ "")
    (hk : d.branchFromWhimsy = some k) (hkpos : 0 < k)
    (hfresh : List.lookup bid st.branches = none)
    (hvalid : validateWhimsyData d = Except.ok ()) :
    List.lookup bid
        ((handleToolCall st (ToolRequest.whimsicalThinkingCall d) strategiesFile r).1.branches)
      = some (st.whimsyHistory.take k.toNat ++ [d]) := by
  have hk0 : k ≠ 0 := by omega
  have hknn : ¬ k < 0 := by omega
  simp only [handleToolCall, processWhimsy, hvalid]
  cases hf : formatWhimsy d <;>
    simp [hf, recordThought, jsTruthyStr, jsTruthyNum, hid, hk, hbid, hk0, hfresh,
      jsSliceTo, hknn, List.lookup]

/-- C2 witness: the amended seeding rule at the concrete scenario of
`stateABC` and `branchRecordX`. -/
theorem branch_created_on_first_reference_witness :
    validateWhimsyData branchRecordX = Except.ok () ∧
    List.lookup "x"
        ((handleToolCall stateABC (ToolRequest.whimsicalThinkingCall branchRecordX) none 0).1.branches)
      = some (stateABC.whimsyHistory.take (2 : Int).toNat ++ [branchRecordX]) :=
  ⟨rfl, branch_created_on_first_reference stateABC branchRecordX none 0 "x" 2
    rfl (by decide) rfl (by decide) rfl rfl⟩

/-- C3: given a main history of exactly `[A, B, C]` and a valid incoming
record with fresh `branchId = "x"` and `branchFromWhimsy = 2`, the seed
slice equals `[A, B]`, the branch after the append is `[A, B] ++ [record]`,
and the main history is unchanged. -/
theorem branch_seeding_three_records (st : ServerState) (A B C d : WhimsyThought)
    (strategiesFile : Option String) (r : Nat)
    (hhist : st.whimsyHistory = [A, B, C])
    (hid : d.branchId = some "x") (hk : d.branchFromWhimsy = some 2)
    (hfresh : List.lookup "x" st.branches = none)
    (hvalid : validateWhimsyData d = Except.ok ()) :
    jsSliceTo st.whimsyHistory 2 = [A, B] ∧
    List.lookup "x"
        ((handleToolCall st (ToolRequest.whimsicalThinkingCall d) strategiesFile r).1.branches)
      = some ([A, B] ++ [d]) ∧
    (handleToolCall st (ToolRequest.whimsicalThinkingCall d) strategiesFile r).1.whimsyHistory
      = [A, B, C] := by
  have hslice : jsSliceTo st.whimsyHistory 2 = [A, B] := by
    rw [hhist]
    rfl
  refine ⟨hslice, ?_, ?_⟩ <;>
    simp only [handleToolCall, processWhimsy, hvalid] <;>
    cases hf : formatWhimsy d <;>
    simp [hf, recordThought, jsTruthyStr, jsTruthyNum, hid, hk, hfresh, hslice, hhist,
      List.lookup, jsSliceTo]

/-- C3 witness: the three-record seeding scenario at concrete records. -/
theorem branch_seeding_three_records_witness :
    jsSliceTo stateABC.whimsyHistory 2 = [thoughtA, thoughtB] ∧
    List.lookup "x"
        ((handleToolCall stateABC (ToolRequest.whimsicalThinkingCall branchRecordX) none 0).1.branches)
      = some ([thoughtA, thoughtB] ++ [branchRecordX]) ∧
    (handleToolCall stateABC (ToolRequest.whimsicalThinkingCall branchRecordX) none 0).1.whimsyHistory
      = [thoughtA, thoughtB, thoughtC] :=
  branch_seeding_three_records stateABC thoughtA thoughtB thoughtC branchRecordX none 0
    rfl rfl rfl rfl rfl

/-- C4 (counterexample to the claim as stated): a payload with non-blank
`whimsy` but with the schema-required `whimsyNumber` and `totalWhimsies`
keys absent passes validation and dispatch returns a success envelope (no
`isError`), not a MissingField error. -/
theorem missing_required_keys_accepted :
    validateWhimsyData missingNumbers = Except.ok () ∧
    (handleToolCall initialState (ToolRequest.whimsicalThinkingCall missingNumbers) none 0).2.isError
      = none ∧
    (none : Option Bool) ≠ some true :=
  ⟨rfl, rfl, by decide⟩

/-- C4 (amended): the thinking handler performs no presence check on the
schema-required keys: for every payload whose `whimsy` trims to a nonempty
string and whose `whimsyNumber` and `totalWhimsies` are absent, validation
succeeds (the JS comparisons against `undefined` are all false), and —
provided no optional field independently makes the renderer throw, i.e.
`delightLevel` is absent or nonnegative — dispatch returns a success
envelope without `isError`; no MissingField failure exists. -/
theorem absent_required_numbers_accepted (st : ServerState) (d : WhimsyThought)
    (strategiesFile : Option String) (r : Nat)
    (hw : jsTrim (d.whimsy.getD "") ≠ "")
    (hn : d.whimsyNumber = none) (ht : d.totalWhimsies = none)
    (hdl : ∀ v, d.delightLevel = some v → 0 ≤ v) :
    validateWhimsyData d = Except.ok () ∧
    (handleToolCall st (ToolRequest.whimsicalThinkingCall d) strategiesFile r).2.isError = none := by
  have hv : validateWhimsyData d = Except.ok () := by
    unfold validateWhimsyData
    rw [blank_guard_false d hw, hn, ht]
    simp [jsLtOne, jsGtNum]
  have hfo := formatWhimsy_ok_of_delight_nonneg d hdl
  refine ⟨hv, ?_⟩
  cases hf : formatWhimsy d with
  | error e =>
    rw [hf] at hfo
    simp [throwsError] at hfo
  | ok s => simp [handleToolCall, processWhimsy, hv, hf]

/-- C4 witness: the amended statement at `missingNumbers`. -/
theorem absent_required_numbers_accepted_witness :
    validateWhimsyData missingNumbers = Except.ok () ∧
    (handleToolCall initialState (ToolRequest.whimsicalThinkingCall missingNumbers) none 0).2.isError
      = none :=
  absent_required_numbers_accepted initialState missingNumbers none 0 (by decide) rfl rfl
    (fun v hv => by cases hv)

/-- C5 (counterexample to the claim as stated): a call with non-blank
content, `whimsyNumber = 5 ≥ 1`, `totalWhimsies = 3 ≥ 1`,
`needsMoreWhimsies: true` — squarely inside the claim's "the same call is
accepted and dispatch succeeds" case — but carrying `delightLevel: -1`
does pass validation yet dispatch FAILS with `isError: true`: the
renderer's `"⭐".repeat(-1)` throws a RangeError that the dispatcher
boundary catches. -/
theorem overflow_allowed_negative_delight_errors :
    overflowAllowedNegDelight.needsMoreWhimsies = some true ∧
    validateWhimsyData overflowAllowedNegDelight = Except.ok () ∧
    (handleToolCall initialState
        (ToolRequest.whimsicalThinkingCall overflowAllowedNegDelight) none 0).2.isError
      = some true ∧
    (some true : Option Bool) ≠ none :=
  ⟨rfl, rfl, rfl, by decide⟩

/-- C5 (amended): for a call with non-blank content, `whimsyNumber ≥ 1`,
`totalWhimsies ≥ 1` and `whimsyNumber > totalWhimsies`: when
`needsMoreWhimsies` is unset or false the dispatcher returns `isError:
true` with the sequence-overflow message; when it is true the call passes
validation (no SequenceOverflow), and dispatch succeeds provided no
optional field independently makes the renderer throw (`delightLevel`
absent or nonnegative). -/
theorem sequence_overflow_policy (st : ServerState) (d : WhimsyThought)
    (strategiesFile : Option String) (r : Nat) (n t : Int)
    (hw : jsTrim (d.whimsy.getD "") ≠ "")
    (hn : d.whimsyNumber = some n) (ht : d.totalWhimsies = some t)
    (hn1 : 1 ≤ n) (ht1 : 1 ≤ t) (hover : t < n) :
    ((d.needsMoreWhimsies = none ∨ d.needsMoreWhimsies = some false) →
      (handleToolCall st (ToolRequest.whimsicalThinkingCall d) strategiesFile r).2
        = overflowErrorEnvelope) ∧
    (d.needsMoreWhimsies = some true →
      validateWhimsyData d = Except.ok ()) ∧
    (d.needsMoreWhimsies = some true →
      (∀ v, d.delightLevel = some v → 0 ≤ v) →
      (handleToolCall st (ToolRequest.whimsicalThinkingCall d) strategiesFile r).2.isError = none) := by
  have h1 : ¬ n < 1 := by omega
  have h2 : ¬ t < 1 := by omega
  have h3 : t < n := hover
  have hvok : d.needsMoreWhimsies = some true → validateWhimsyData d = Except.ok () := by
    intro hmore
    unfold validateWhimsyData
    rw [blank_guard_false d hw, hn, ht, hmore]
    simp [jsLtOne, jsGtNum, jsTruthyBool, h1, h2]
  refine ⟨?_, hvok, ?_⟩
  · intro hmore
    have hv : validateWhimsyData d =
        Except.error "Our whimsy number has wandered beyond our planned journey - perhaps we need more whimsies?" := by
      unfold validateWhimsyData
      rw [blank_guard_false d hw, hn, ht]
      rcases hmore with hm | hm <;> rw [hm] <;>
        simp [jsLtOne, jsGtNum, jsTruthyBool, h1, h2, h3]
    simp [handleToolCall, processWhimsy, hv, overflowErrorEnvelope]
  · intro hmore hdl
    have hv := hvok hmore
    have hfo := formatWhimsy_ok_of_delight_nonneg d hdl
    cases hf : formatWhimsy d with
    | error e =>
      rw [hf] at hfo
      simp [throwsError] at hfo
    | ok s => simp [handleToolCall, processWhimsy, hv, hf]

/-- C5 witness: the overflow rejection at `overflowThought` and the
acceptance at `overflowAllowed` (whose `delightLevel` is absent). -/
theorem sequence_overflow_policy_witness :
    (handleToolCall initialState (ToolRequest.whimsicalThinkingCall overflowThought) none 0).2
      = overflowErrorEnvelope ∧
    (handleToolCall initialState (ToolRequest.whimsicalThinkingCall overflowAllowed) none 0).2.isError
      = none :=
  ⟨(sequence_overflow_policy initialState overflowThought none 0 5 3 (by decide) rfl rfl
      (by decide) (by decide) (by decide)).1 (Or.inl rfl),
   (sequence_overflow_policy initialState overflowAllowed none 0 5 3 (by decide) rfl rfl
      (by decide) (by decide) (by decide)).2.2 rfl (fun v hv => by cases hv)⟩

/-- C6: every `whimsical_thinking` call whose `whimsy` string trims to
empty is answered with an `isError: true` envelope, whatever the other
fields hold. -/
theorem blank_content_rejected (st : ServerState) (d : WhimsyThought)
    (strategiesFile : Option String) (r : Nat) (s : String)
    (hws : d.whimsy = some s) (hblank : jsTrim s = "") :
    (handleToolCall st (ToolRequest.whimsicalThinkingCall d) strategiesFile r).2.isError
      = some true := by
  have hv : validateWhimsyData d = Except.error "A whimsy must contain some delightful content!" := by
    unfold validateWhimsyData
    rw [hws]
    simp [hblank]
  simp [handleToolCall, processWhimsy, hv]

/-- C6 witness: the rejection at a whitespace-only `whimsy`. -/
theorem blank_content_rejected_witness :
    (handleToolCall initialState (ToolRequest.whimsicalThinkingCall whitespaceThought) none 0).2.isError
      = some true :=
  blank_content_rejected initialState whitespaceThought none 0 "   " rfl (by decide)

/-- C7: if the session level is OFF, `get_whimsy_guidance` returns the
fixed stay-functional directive regardless of context and seriousness;
otherwise the effective level is `min(currentLevel, 1)` for `seriousness =
"high"` and `currentLevel` for any other seriousness, and with
`currentLevel = 2` (OVERT) and high seriousness the returned guidance is
built from the SUBTLE-tier template and not from the OVERT-tier one. -/
theorem guidance_policy (settings : WhimsySettings) (responseContext : String)
    (seriousness : Option String) :
    (settings.level = 0 →
      getWhimsyGuidance settings responseContext seriousness
        = { content := [{ type := "text", text := offGuidance }] }) ∧
    (settings.level ≠ 0 → seriousness = some "high" →
      effectiveLevelOf settings.level seriousness = min settings.level 1) ∧
    (settings.level ≠ 0 → seriousness ≠ some "high" →
      effectiveLevelOf settings.level seriousness = settings.level) ∧
    (settings.level = 2 → seriousness = some "high" →
      ∃ rest, (getWhimsyGuidance settings responseContext seriousness).content
        = [{ type := "text", text := subtleGuidance ++ rest }]) ∧
    (settings.level = 2 → seriousness = some "high" →
      ∀ rest2, (getWhimsyGuidance settings responseContext seriousness).content
        ≠ [{ type := "text", text := overtGuidance ++ rest2 }]) := by
  refine ⟨?_, ?_, ?_, ?_, ?_⟩
  · intro h
    simp [getWhimsyGuidance, h]
  · intro h hser
    simp only [effectiveLevelOf, hser]
    split
    · rename_i hgt
      simp at hgt
      omega
    · rename_i hle
      simp at hle
      omega
  · intro h hser
    simp [effectiveLevelOf, hser]
  · cases settings with
    | mk level style =>
      intro h hser
      have hl : level = 2 := h
      subst hl
      subst hser
      exact ⟨_, rfl⟩
  · cases settings with
    | mk level style =>
      intro h hser
      have hl : level = 2 := h
      subst hl
      subst hser
      intro rest2 hEq
      have hex : ∃ rest, (getWhimsyGuidance { level := 2, style := style } responseContext
          (some "high")).content = [{ type := "text", text := subtleGuidance ++ rest }] := ⟨_, rfl⟩
      obtain ⟨rest, hrest⟩ := hex
      rw [hrest] at hEq
      simp only [List.cons.injEq, and_true, TextContent.mk.injEq, true_and] at hEq
      have h2 := congrArg String.data hEq
      rw [string_data_append, string_data_append] at h2
      have hs : subtleGuidance.data = '✨' :: subtleGuidance.data.tail := rfl
      have ho : overtGuidance.data = '🌈' :: overtGuidance.data.tail := rfl
      rw [hs, ho] at h2
      simp only [List.cons_append] at h2
      injection h2 with hhead _
      exact absurd hhead (by decide)

/-- C7 witness: the off directive, the capped effective level, and the
SUBTLE-tier template selection at `currentLevel = 2`, `seriousness =
"high"`. -/
theorem guidance_policy_witness :
    getWhimsyGuidance { level := 0 } "debugging" (some "low")
      = { content := [{ type := "text", text := offGuidance }] } ∧
    effectiveLevelOf 2 (some "high") = min 2 1 ∧
    (∃ rest, (getWhimsyGuidance { level := 2 } "x" (some "high")).content
      = [{ type := "text", text := subtleGuidance ++ rest }]) :=
  ⟨(guidance_policy { level := 0 } "debugging" (some "low")).1 rfl,
   (guidance_policy { level := 2 } "x" (some "high")).2.1 (by decide) rfl,
   (guidance_policy { level := 2 } "x" (some "high")).2.2.2.1 rfl rfl⟩

/-- C8 (counterexample to the claim as stated): a `set_whimsy_level` call
that omits the optional style argument does NOT overwrite `currentStyle`
with the (absent) argument — the previous style survives the call. -/
theorem style_retained_when_omitted :
    (handleToolCall styledState (ToolRequest.setWhimsyLevelCall 2 none) none 0).1.whimsySettings.style
      = some "playful" ∧
    some "playful" ≠ (none : Option String) :=
  ⟨rfl, by decide⟩

/-- C8 (amended): `set_whimsy_level` overwrites `currentLevel`
unconditionally with the supplied level and without further validation;
`currentStyle` is overwritten only when a truthy (non-empty) style argument
is supplied and is retained unchanged otherwise; history and branches are
untouched. -/
theorem setLevel_overwrites_level_keeps_style (st : ServerState) (level : Nat)
    (style : Option String) (strategiesFile : Option String) (r : Nat) :
    (handleToolCall st (ToolRequest.setWhimsyLevelCall level style) strategiesFile r).1.whimsySettings.level
      = level ∧
    (handleToolCall st (ToolRequest.setWhimsyLevelCall level style) strategiesFile r).1.whimsySettings.style
      = (if jsTruthyStr style then style else st.whimsySettings.style) ∧
    (handleToolCall st (ToolRequest.setWhimsyLevelCall level style) strategiesFile r).1.whimsyHistory
      = st.whimsyHistory ∧
    (handleToolCall st (ToolRequest.setWhimsyLevelCall level style) strategiesFile r).1.branches
      = st.branches := by
  refine ⟨?_, ?_, ?_, ?_⟩ <;> simp [handleToolCall, setWhimsyLevel]

/-- C9: the strategy the picker selects, for any parsed list and any
in-range random index, is a member of the parsed strategy list: one of the
non-blank trimmed lines of the file content. -/
theorem picked_strategy_mem (strategiesContent : String) (i : Nat)
    (h : i < (obliqueStrategies strategiesContent).length) :
    pickStrategy (obliqueStrategies strategiesContent) ⟨i, h⟩ ∈ obliqueStrategies strategiesContent ∧
    (pickStrategy (obliqueStrategies strategiesContent) ⟨i, h⟩).length ≠ 0 ∧
    pickStrategy (obliqueStrategies strategiesContent) ⟨i, h⟩
      ∈ (jsSplitNewlines strategiesContent).map jsTrim := by
  have hmem : pickStrategy (obliqueStrategies strategiesContent) ⟨i, h⟩
      ∈ obliqueStrategies strategiesContent := List.get_mem _ _ _
  have hmem' := hmem
  simp only [obliqueStrategies] at hmem'
  have hf := List.mem_filter.mp hmem'
  refine ⟨hmem, ?_, hf.1⟩
  simpa using hf.2

/-- C9 witness: picking index 1 from a two-strategy fixture list. -/
theorem picked_strategy_mem_witness :
    1 < (obliqueStrategies "Use an old idea\n  Honor thy error as a hidden intention \n\n").length ∧
    pickStrategy (obliqueStrategies "Use an old idea\n  Honor thy error as a hidden intention \n\n")
        ⟨1, by decide⟩
      ∈ obliqueStrategies "Use an old idea\n  Honor thy error as a hidden intention \n\n" :=
  ⟨by decide,
   (picked_strategy_mem "Use an old idea\n  Honor thy error as a hidden intention \n\n" 1
      (by decide)).1⟩

/-- C10: whenever validation of a `whimsical_thinking` payload fails, the
dispatcher returns the whole session state — history, branches and
settings — exactly as it was: validation runs before any mutation. -/
theorem failed_validation_preserves_state (st : ServerState) (d : WhimsyThought)
    (strategiesFile : Option String) (r : Nat) (msg : String)
    (hfail : validateWhimsyData d = Except.error msg) :
    (handleToolCall st (ToolRequest.whimsicalThinkingCall d) strategiesFile r).1 = st := by
  simp [handleToolCall, processWhimsy, hfail]

/-- C10 witness: a blank-content record against the populated `stateABC`
leaves the state untouched. -/
theorem failed_validation_preserves_state_witness :
    validateWhimsyData blankThought
      = Except.error "A whimsy must contain some delightful content!" ∧
    (handleToolCall stateABC (ToolRequest.whimsicalThinkingCall blankThought) none 0).1 = stateABC :=
  ⟨rfl, failed_validation_preserves_state stateABC blankThought none 0
    "A whimsy must contain some delightful content!" rfl⟩

end WhimsyServer
